import Mathlib

/-!
Verification of the focus-and-hotkey subsystem of the clippy daemon.

Shallow embedding of the Rust sources:
- src/hotkey/focus.rs : process-tree walk and session resolution
- src/hotkey/x11.rs   : lock-mask permutations, grab/ungrab, active-window
                        PID query, event-polling loop
- src/broker/sink.rs  : clipboard and file sink delivery

OS and X11 effects (reading /proc, sending protocol requests) are
modelled as explicit oracle parameters; a Rust panic is modelled as
`Option.none`; a Rust `Result` as `Except`.
-/

namespace Clippy

/-! ## Data model (src/ipc/protocol SessionDescriptor, src/hotkey/focus.rs) -/

/-- Session descriptor consumed from the session registry:
`{session: String, pid: u32, has_turn: bool}`. -/
structure SessionDescriptor where
  session : String
  pid : Nat
  has_turn : Bool
deriving Repr, DecidableEq

/-- Focus resolution error (src/hotkey/focus.rs). -/
inductive FocusError where
  | NoSession : FocusError
  | Ambiguous : List String → FocusError
deriving Repr, DecidableEq

/-! ## Process-tree walker (src/hotkey/focus.rs)

`get_ppid` reads `/proc/{pid}/status`; it is modelled as an oracle
`ppid : Nat → Option Nat` giving, for each pid, the parent pid the OS
reports (`none` when the process does not exist or the record is
unreadable). -/

/-- Loop body of `is_ancestor`: the Rust `for _ in 0..1024` walk, with the
remaining iteration count as fuel.  Guard order follows the source:
match-on-ancestor first, then the progress/root guard, else `false`. -/
def isAncestorGo (ppid : Nat → Option Nat) (ancestor_pid : Nat) :
    Nat → Nat → Bool
  | 0, _ => false
  | fuel + 1, current =>
    match ppid current with
    | some p =>
      if p = ancestor_pid then true
      else if 1 < p ∧ p ≠ current then isAncestorGo ppid ancestor_pid fuel p
      else false
    | none => false

/-- Check whether `ancestor_pid` is a (strict) ancestor of `descendant_pid`,
walking upward via the `ppid` oracle, with the source's 1024-step cycle
guard (src/hotkey/focus.rs, `is_ancestor`). -/
def is_ancestor (ppid : Nat → Option Nat) (ancestor_pid descendant_pid : Nat) :
    Bool :=
  isAncestorGo ppid ancestor_pid 1024 descendant_pid

/-- Instrumented variant of the walk: also counts how many `ppid`
(parent-lookup) calls are made. -/
def isAncestorStepsGo (ppid : Nat → Option Nat) (ancestor_pid : Nat) :
    Nat → Nat → Bool × Nat
  | 0, _ => (false, 0)
  | fuel + 1, current =>
    match ppid current with
    | some p =>
      if p = ancestor_pid then (true, 1)
      else if 1 < p ∧ p ≠ current then
        let r := isAncestorStepsGo ppid ancestor_pid fuel p
        (r.1, r.2 + 1)
      else (false, 1)
    | none => (false, 1)

/-- Instrumented `is_ancestor`: result plus number of parent lookups. -/
def isAncestorSteps (ppid : Nat → Option Nat)
    (ancestor_pid descendant_pid : Nat) : Bool × Nat :=
  isAncestorStepsGo ppid ancestor_pid 1024 descendant_pid

/-! ## Focus resolver (src/hotkey/focus.rs, `resolve_session`) -/

/-- Candidate condition from the `resolve_session` loop:
`session.pid == window_pid || is_ancestor(window_pid, session.pid)`. -/
def is_candidate (ppid : Nat → Option Nat) (window_pid : Nat)
    (s : SessionDescriptor) : Bool :=
  (s.pid == window_pid) || is_ancestor ppid window_pid s.pid

/-- Resolve which session, if any, is owned by the focused window's
process.  Mirrors the source: accumulate matching session ids in input
order, then branch on `matches.len()`.  The single-candidate branch's
`matches.into_iter().next().unwrap()` is modelled by `Option.map` on
`List.head?`, so a panic would surface as `none`. -/
def resolve_session (ppid : Nat → Option Nat) (window_pid : Nat)
    (sessions : List SessionDescriptor) :
    Option (Except FocusError String) :=
  let matched := sessions.foldl
    (fun acc s =>
      if is_candidate ppid window_pid s then acc ++ [s.session] else acc) []
  match matched.length with
  | 0 => some (Except.error FocusError.NoSession)
  | 1 => matched.head?.map Except.ok
  | _ => some (Except.error (FocusError.Ambiguous matched))

/-- Ids of the candidate sessions, in input order. -/
def candidate_ids (ppid : Nat → Option Nat) (window_pid : Nat)
    (sessions : List SessionDescriptor) : List String :=
  (sessions.filter (is_candidate ppid window_pid)).map SessionDescriptor.session

/-- The fold in `resolve_session` computes exactly the candidate ids. -/
theorem resolve_foldl_eq_candidates (ppid : Nat → Option Nat)
    (window_pid : Nat) (sessions : List SessionDescriptor)
    (acc : List String) :
    sessions.foldl
        (fun a s =>
          if is_candidate ppid window_pid s then a ++ [s.session] else a) acc
      = acc ++ candidate_ids ppid window_pid sessions := by
  induction sessions generalizing acc with
  | nil => simp [candidate_ids]
  | cons x xs ih =>
    by_cases hx : is_candidate ppid window_pid x
    · simp [List.foldl, candidate_ids, hx, ih, List.filter_cons]
    · simp [List.foldl, candidate_ids, hx, ih, List.filter_cons]

/-- Branching on the length of a list of ids is the same as branching on
its shape. -/
theorem resolve_match_len (l : List String) :
    (match l.length with
      | 0 => some (Except.error FocusError.NoSession)
      | 1 => l.head?.map Except.ok
      | _ => some (Except.error (FocusError.Ambiguous l)))
    = (match l with
      | [] => some (Except.error FocusError.NoSession)
      | [a] => some (Except.ok a)
      | l => some (Except.error (FocusError.Ambiguous l))) := by
  match l with
  | [] => rfl
  | [a] => rfl
  | a :: b :: t => rfl

/-- Closed form of `resolve_session` as a case split on the candidate ids. -/
theorem resolve_session_eq_cases (ppid : Nat → Option Nat) (window_pid : Nat)
    (sessions : List SessionDescriptor) :
    resolve_session ppid window_pid sessions
      = (match candidate_ids ppid window_pid sessions with
        | [] => some (Except.error FocusError.NoSession)
        | [a] => some (Except.ok a)
        | l => some (Except.error (FocusError.Ambiguous l))) := by
  have hfold := resolve_foldl_eq_candidates ppid window_pid sessions []
  simp only [List.nil_append] at hfold
  simp only [resolve_session, hfold]
  exact resolve_match_len _

/-- Every candidate id is the session field of some input descriptor. -/
theorem candidate_ids_subset (ppid : Nat → Option Nat) (window_pid : Nat)
    (sessions : List SessionDescriptor) :
    ∀ i ∈ candidate_ids ppid window_pid sessions,
      i ∈ sessions.map SessionDescriptor.session := by
  intro i hi
  simp only [candidate_ids, List.mem_map] at hi
  obtain ⟨s, hs, rfl⟩ := hi
  exact List.mem_map.mpr ⟨s, (List.mem_filter.mp hs).1, rfl⟩

/-- C1: `resolve_session` returns exactly by candidate count — a session is
a candidate iff its pid equals the focused pid or the focused pid is a
strict ancestor of its pid (the `is_candidate` condition); zero candidates
yield `NoSession`, exactly one yields that session's id, and two or more
yield `Ambiguous` carrying all matching ids in input order. -/
theorem resolve_session_by_candidate_count (ppid : Nat → Option Nat)
    (window_pid : Nat) (sessions : List SessionDescriptor) :
    (candidate_ids ppid window_pid sessions = [] →
      resolve_session ppid window_pid sessions
        = some (Except.error FocusError.NoSession)) ∧
    (∀ only_id, candidate_ids ppid window_pid sessions = [only_id] →
      resolve_session ppid window_pid sessions = some (Except.ok only_id)) ∧
    (2 ≤ (candidate_ids ppid window_pid sessions).length →
      resolve_session ppid window_pid sessions
        = some (Except.error
            (FocusError.Ambiguous (candidate_ids ppid window_pid sessions)))) := by
  rw [resolve_session_eq_cases]
  refine ⟨?_, ?_, ?_⟩
  · intro h0; rw [h0]
  · intro only_id h1; rw [h1]
  · intro h2
    rcases hc : candidate_ids ppid window_pid sessions with _ | ⟨a, _ | ⟨b, t⟩⟩
    · rw [hc] at h2; simp at h2
    · rw [hc] at h2; simp at h2
    · rfl

/-- Witness for C1: with two sessions of pid 7 under a focused pid 7, both
are candidates and the result is `Ambiguous` with both ids in order. -/
theorem resolve_session_by_candidate_count_witness :
    resolve_session (fun _ => none) 7
        [⟨"pane1", 7, false⟩, ⟨"pane2", 7, true⟩]
      = some (Except.error (FocusError.Ambiguous ["pane1", "pane2"])) := by
  have h := (resolve_session_by_candidate_count (fun _ => none) 7
    [⟨"pane1", 7, false⟩, ⟨"pane2", 7, true⟩]).2.2 (by decide)
  rw [h]
  rfl

/-- C10: `resolve_session` never panics (the model never returns `none`),
every id it returns — the single ok id or each element of the `Ambiguous`
list — is the session field of some input descriptor, and the `Ambiguous`
list always has at least two elements. -/
theorem resolve_session_invariants (ppid : Nat → Option Nat)
    (window_pid : Nat) (sessions : List SessionDescriptor) :
    resolve_session ppid window_pid sessions ≠ none ∧
    (∀ only_id, resolve_session ppid window_pid sessions
          = some (Except.ok only_id) →
      only_id ∈ sessions.map SessionDescriptor.session) ∧
    (∀ ids, resolve_session ppid window_pid sessions
          = some (Except.error (FocusError.Ambiguous ids)) →
      2 ≤ ids.length ∧
        ∀ i ∈ ids, i ∈ sessions.map SessionDescriptor.session) := by
  have hsub := candidate_ids_subset ppid window_pid sessions
  rw [resolve_session_eq_cases]
  rcases hc : candidate_ids ppid window_pid sessions with _ | ⟨a, _ | ⟨b, t⟩⟩
  · refine ⟨by simp, ?_, ?_⟩
    · intro only_id h; simp at h
    · intro ids h; simp at h
  · refine ⟨by simp, ?_, ?_⟩
    · intro only_id h
      simp only [Option.some.injEq, Except.ok.injEq] at h
      exact h ▸ hsub a (hc ▸ List.mem_singleton.mpr rfl)
    · intro ids h; simp at h
  · refine ⟨by simp, ?_, ?_⟩
    · intro only_id h; simp at h
    · intro ids h
      simp only [Option.some.injEq, Except.error.injEq,
        FocusError.Ambiguous.injEq] at h
      subst h
      refine ⟨by simp, ?_⟩
      intro i hi
      exact hsub i (hc ▸ hi)

/-- Witness for C10: concrete ambiguous case — both returned ids come from
the input snapshot and the list has two elements. -/
theorem resolve_session_invariants_witness :
    2 ≤ (["s1", "s2"] : List String).length ∧
      ∀ i ∈ (["s1", "s2"] : List String),
        i ∈ ([⟨"s1", 4, false⟩, ⟨"s2", 4, true⟩] :
              List SessionDescriptor).map SessionDescriptor.session :=
  (resolve_session_invariants (fun _ => none) 4
      [⟨"s1", 4, false⟩, ⟨"s2", 4, true⟩]).2.2 ["s1", "s2"] (by rfl)

/-- Degenerate /proc oracle: every status record reports parent pid 5,
in particular pid 5 is reported as its own parent. -/
def degenerate_ppid : Nat → Option Nat := fun _ => some 5

/-- C2 evidence: on the degenerate oracle that reports pid 5 as its own
parent, `is_ancestor 5 5` returns `true` — the ancestor-match guard runs
before the no-progress guard, so a no-progress step whose repeated parent
equals the queried ancestor yields `true`, contradicting the source's own
doc comment (strict ancestry: equal pids always return `false`) and the
documented no-progress behaviour. -/
theorem is_ancestor_self_true_on_degenerate :
    is_ancestor degenerate_ppid 5 5 = true := by decide

/-- C6: the ancestry walk always terminates within the fixed bound — the
instrumented walk agrees with `is_ancestor` and performs at most 1024
parent lookups, for every oracle (cyclic or otherwise malformed included). -/
theorem is_ancestor_bounded_lookups (ppid : Nat → Option Nat)
    (ancestor_pid descendant_pid : Nat) :
    (isAncestorSteps ppid ancestor_pid descendant_pid).1
        = is_ancestor ppid ancestor_pid descendant_pid ∧
    (isAncestorSteps ppid ancestor_pid descendant_pid).2 ≤ 1024 := by
  have key : ∀ (fuel current : Nat),
      (isAncestorStepsGo ppid ancestor_pid fuel current).1
          = isAncestorGo ppid ancestor_pid fuel current ∧
      (isAncestorStepsGo ppid ancestor_pid fuel current).2 ≤ fuel := by
    intro fuel
    induction fuel with
    | zero => intro c; simp [isAncestorStepsGo, isAncestorGo]
    | succ n ih =>
      intro c
      cases hp : ppid c with
      | none => simp [isAncestorStepsGo, isAncestorGo, hp]
      | some p =>
        by_cases h1 : p = ancestor_pid
        · simp [isAncestorStepsGo, isAncestorGo, hp, h1]
        · by_cases h2 : 1 < p ∧ p ≠ c
          · simp only [isAncestorStepsGo, isAncestorGo, hp]
            rw [if_neg h1, if_neg h1, if_pos h2, if_pos h2]
            exact ⟨(ih p).1, Nat.succ_le_succ (ih p).2⟩
          · simp [isAncestorStepsGo, isAncestorGo, hp, h1, h2]
  exact key 1024 descendant_pid

/-! ## X11 adapter constants and key grabs (src/hotkey/x11.rs) -/

/-- CapsLock modifier bit (LockMask), source constant `LOCK_MASK`. -/
def LOCK_MASK : Nat := 0x0002

/-- NumLock modifier bit as the source defines it: the fixed Mod2Mask
constant (`const NUM_LOCK_MASK: u16 = 0x0010`). -/
def NUM_LOCK_MASK : Nat := 0x0010

/-- The four lock-modifier permutations, source constant `LOCK_MASKS`. -/
def LOCK_MASKS : List Nat :=
  [0, LOCK_MASK, NUM_LOCK_MASK, LOCK_MASK ||| NUM_LOCK_MASK]

/-- Parsed key binding (src/hotkey/keybinding.rs `Binding`): modifier
bitmask, keycode and the raw human-readable spec. -/
structure Binding where
  modifiers : Nat
  keycode : Nat
  raw : String
deriving Repr, DecidableEq

/-- Outcome of one XGrabKey round trip as the source distinguishes them:
the send itself can fail (connection error, propagated with `?`), the
reply can be an error (grab conflict, logged and tolerated), or the grab
succeeds. -/
inductive GrabOutcome where
  | ok : GrabOutcome
  | conflict : String → GrabOutcome
  | sendFailed : String → GrabOutcome
deriving Repr, DecidableEq

/-- Test for the send-failure outcome. -/
def isSendFailed : GrabOutcome → Bool
  | GrabOutcome.sendFailed _ => true
  | _ => false

/-- Loop of `grab_key` over the lock masks, threading `all_ok`: a send
failure aborts with an error, a conflict clears `all_ok` and continues,
success continues. -/
def grabKeyGo (grab : Nat → Nat → GrabOutcome) (b : Binding) :
    List Nat → Bool → Except String Bool
  | [], all_ok => Except.ok all_ok
  | m :: rest, all_ok =>
    match grab (b.modifiers ||| m) b.keycode with
    | GrabOutcome.sendFailed e => Except.error ("grab_key send: " ++ e)
    | GrabOutcome.conflict _ => grabKeyGo grab b rest false
    | GrabOutcome.ok => grabKeyGo grab b rest all_ok

/-- Register a global key grab (src/hotkey/x11.rs `grab_key`): one grab
request per lock-mask permutation, each with the binding's modifiers OR-ed
in; `Ok(all_ok)` unless a send fails.  The grab oracle maps
(modifier mask, keycode) to the outcome of that request. -/
def grab_key (grab : Nat → Nat → GrabOutcome) (b : Binding) :
    Except String Bool :=
  grabKeyGo grab b LOCK_MASKS true

/-- Requests (modifier mask, keycode) issued by the `grab_key` loop, in
order: all permutations up to and including a failing send, after which
the loop aborts. -/
def grabAttemptsGo (grab : Nat → Nat → GrabOutcome) (b : Binding) :
    List Nat → List (Nat × Nat)
  | [] => []
  | m :: rest =>
    match grab (b.modifiers ||| m) b.keycode with
    | GrabOutcome.sendFailed _ => [(b.modifiers ||| m, b.keycode)]
    | _ => (b.modifiers ||| m, b.keycode) :: grabAttemptsGo grab b rest

/-- Requests issued by `grab_key`. -/
def grabAttempts (grab : Nat → Nat → GrabOutcome) (b : Binding) :
    List (Nat × Nat) :=
  grabAttemptsGo grab b LOCK_MASKS

/-- Requests issued by `ungrab_key` (src/hotkey/x11.rs): the loop always
issues all lock-mask permutations; per-request errors are only logged, so
the request list is the whole map over `LOCK_MASKS`. -/
def ungrab_key (b : Binding) : List (Nat × Nat) :=
  LOCK_MASKS.map (fun m => (b.modifiers ||| m, b.keycode))

/-! ## NumLock bit (src/hotkey/x11.rs `NUM_LOCK_MASK`) -/

/-- NumLock keysym (XK_Num_Lock). -/
def XK_Num_Lock : Nat := 0xFF7F

/-- Modelled from the spec: dynamic NumLock-bit detection — query the
8-row modifier-to-keycode table and the keycode-to-keysym table, return
the bit of the first modifier row containing a keycode mapped to the
NumLock symbol, falling back to the conventional Mod2 bit when nothing
matches.  No such code exists in the source; src/hotkey/x11.rs uses the
fixed constant `NUM_LOCK_MASK` instead. -/
def detect_num_lock_bit (modmap : List (List Nat))
    (keysyms : Nat → List Nat) : Nat :=
  match (List.range modmap.length).find? (fun k =>
      (modmap.getD k []).any (fun kc => (keysyms kc).contains XK_Num_Lock)) with
  | some k => 1 <<< k
  | none => NUM_LOCK_MASK

/-- C4 counterexample: with the NumLock symbol placed under modifier row 3
(keycode 77), the spec's detection yields bit 1 <<< 3 = 8, while the bit
the code uses is the fixed constant 16 — the NumLock bit used for
lock-modifier permutations is not detected from the tables. -/
theorem num_lock_bit_not_dynamic :
    detect_num_lock_bit [[], [], [], [77], [], [], [], []]
        (fun kc => if kc = 77 then [XK_Num_Lock] else []) = 8 ∧
    NUM_LOCK_MASK = 16 ∧
    detect_num_lock_bit [[], [], [], [77], [], [], [], []]
        (fun kc => if kc = 77 then [XK_Num_Lock] else []) ≠ NUM_LOCK_MASK := by
  decide

/-- C4 amended: the NumLock modifier bit used for the lock-modifier
permutations is the fixed conventional Mod2 constant 0x0010, and the
permutation list is the constant `[0, CapsLock, NumLock, both]`. -/
theorem num_lock_mask_is_fixed_constant :
    NUM_LOCK_MASK = 0x0010 ∧ LOCK_MASK = 0x0002 ∧
    LOCK_MASKS = [0, 0x0002, 0x0010, 0x0012] := by
  decide

/-- Every request the grab loop issues, over any mask list, is among the
requests of the full map over that mask list. -/
theorem grabAttemptsGo_subset (grab : Nat → Nat → GrabOutcome) (b : Binding) :
    ∀ masks : List Nat, ∀ r ∈ grabAttemptsGo grab b masks,
      r ∈ masks.map (fun m => (b.modifiers ||| m, b.keycode)) := by
  intro masks
  induction masks with
  | nil => intro r hr; simp [grabAttemptsGo] at hr
  | cons m rest ih =>
    intro r hr
    simp only [grabAttemptsGo] at hr
    cases hg : grab (b.modifiers ||| m) b.keycode with
    | ok =>
      rw [hg] at hr
      rcases List.mem_cons.mp hr with h | h
      · exact List.mem_map.mpr ⟨m, List.mem_cons_self m rest, h.symm⟩
      · exact List.mem_cons_of_mem _ (ih r h)
    | conflict e =>
      rw [hg] at hr
      rcases List.mem_cons.mp hr with h | h
      · exact List.mem_map.mpr ⟨m, List.mem_cons_self m rest, h.symm⟩
      · exact List.mem_cons_of_mem _ (ih r h)
    | sendFailed e =>
      rw [hg] at hr
      rcases List.mem_cons.mp hr with h | h
      · exact List.mem_map.mpr ⟨m, List.mem_cons_self m rest, h.symm⟩
      · simp at h

/-- With no send failures, the grab loop issues exactly the full map over
the mask list. -/
theorem grabAttemptsGo_eq_of_no_sendFailed (grab : Nat → Nat → GrabOutcome)
    (b : Binding) :
    ∀ masks : List Nat,
      (∀ m ∈ masks, isSendFailed (grab (b.modifiers ||| m) b.keycode) = false) →
      grabAttemptsGo grab b masks
        = masks.map (fun m => (b.modifiers ||| m, b.keycode)) := by
  intro masks
  induction masks with
  | nil => intro h; rfl
  | cons m rest ih =>
    intro h
    simp only [grabAttemptsGo, List.map_cons]
    cases hg : grab (b.modifiers ||| m) b.keycode with
    | ok => rw [ih (fun x hx => h x (List.mem_cons_of_mem m hx))]
    | conflict e => rw [ih (fun x hx => h x (List.mem_cons_of_mem m hx))]
    | sendFailed e =>
      have := h m (List.mem_cons_self m rest)
      rw [hg] at this
      simp [isSendFailed] at this

/-- C5: the set of lock-modifier combinations applied by `grab_key` and by
`ungrab_key` match — ungrab always releases exactly the four combinations
of {none, CapsLock, NumLock, both} OR-ed with the binding's modifiers,
every request grab issues is among them, and when no send fails (the only
case in which any grab is registered at all) the two request lists are
identical, so no grab is left registered under a combination ungrab does
not release. -/
theorem grab_ungrab_lock_mask_symmetry (grab : Nat → Nat → GrabOutcome)
    (b : Binding) :
    ungrab_key b
      = [(b.modifiers ||| 0, b.keycode),
         (b.modifiers ||| LOCK_MASK, b.keycode),
         (b.modifiers ||| NUM_LOCK_MASK, b.keycode),
         (b.modifiers ||| (LOCK_MASK ||| NUM_LOCK_MASK), b.keycode)] ∧
    (∀ r ∈ grabAttempts grab b, r ∈ ungrab_key b) ∧
    ((∀ m ∈ LOCK_MASKS,
        isSendFailed (grab (b.modifiers ||| m) b.keycode) = false) →
      grabAttempts grab b = ungrab_key b) := by
  refine ⟨rfl, ?_, ?_⟩
  · intro r hr
    exact grabAttemptsGo_subset grab b LOCK_MASKS r hr
  · intro h
    exact grabAttemptsGo_eq_of_no_sendFailed grab b LOCK_MASKS h

/-- Witness for C5: a concrete binding and oracle (one combination held by
another client) — grab and ungrab use the same four combinations. -/
theorem grab_ungrab_lock_mask_symmetry_witness :
    grabAttempts
        (fun mods _ => if mods = 3 then GrabOutcome.conflict "held"
          else GrabOutcome.ok)
        ⟨1, 10, "Super+C"⟩
      = ungrab_key ⟨1, 10, "Super+C"⟩ :=
  (grab_ungrab_lock_mask_symmetry
      (fun mods _ => if mods = 3 then GrabOutcome.conflict "held"
        else GrabOutcome.ok)
      ⟨1, 10, "Super+C"⟩).2.2 (by decide)

/-- With no send failures, the grab loop returns `Ok` of the conjunction
of per-combination success. -/
theorem grabKeyGo_no_sendFailed (grab : Nat → Nat → GrabOutcome)
    (b : Binding) :
    ∀ (masks : List Nat) (all_ok : Bool),
      (∀ m ∈ masks, isSendFailed (grab (b.modifiers ||| m) b.keycode) = false) →
      grabKeyGo grab b masks all_ok
        = Except.ok (all_ok &&
            masks.all (fun m => grab (b.modifiers ||| m) b.keycode
              == GrabOutcome.ok)) := by
  intro masks
  induction masks with
  | nil => intro all_ok h; simp [grabKeyGo]
  | cons m rest ih =>
    intro all_ok h
    simp only [grabKeyGo, List.all_cons]
    cases hg : grab (b.modifiers ||| m) b.keycode with
    | ok =>
      rw [ih all_ok (fun x hx => h x (List.mem_cons_of_mem m hx))]
      simp
    | conflict e =>
      rw [ih false (fun x hx => h x (List.mem_cons_of_mem m hx))]
      simp
    | sendFailed e =>
      have := h m (List.mem_cons_self m rest)
      rw [hg] at this
      simp [isSendFailed] at this

/-- C9: grab-combination failures are non-fatal — when no send fails,
`grab_key` attempts all four lock-modifier combinations and returns a
non-error `Ok b` where `b` is true exactly when every combination
succeeded; the error result is reserved for send failures. -/
theorem grab_key_conflicts_nonfatal (grab : Nat → Nat → GrabOutcome)
    (b : Binding)
    (hsend : ∀ m ∈ LOCK_MASKS,
      isSendFailed (grab (b.modifiers ||| m) b.keycode) = false) :
    (grabAttempts grab b).length = 4 ∧
    grab_key grab b
      = Except.ok (LOCK_MASKS.all
          (fun m => grab (b.modifiers ||| m) b.keycode == GrabOutcome.ok)) := by
  constructor
  · rw [grabAttempts, grabAttemptsGo_eq_of_no_sendFailed grab b LOCK_MASKS hsend]
    rfl
  · rw [grab_key, grabKeyGo_no_sendFailed grab b LOCK_MASKS true hsend]
    simp

/-- Witness for C9: an oracle holding one combination as a conflict — all
four combinations are attempted and the result is `Ok false` (a non-error
partial failure). -/
theorem grab_key_conflicts_nonfatal_witness :
    (grabAttempts
        (fun mods _ => if mods = 17 then GrabOutcome.conflict "held"
          else GrabOutcome.ok)
        ⟨1, 10, "Super+V"⟩).length = 4 ∧
    grab_key
        (fun mods _ => if mods = 17 then GrabOutcome.conflict "held"
          else GrabOutcome.ok)
        ⟨1, 10, "Super+V"⟩
      = Except.ok (LOCK_MASKS.all
          (fun m => (fun mods _ => if mods = 17 then GrabOutcome.conflict "held"
            else GrabOutcome.ok) (1 ||| m) (10 : Nat) == GrabOutcome.ok)) :=
  grab_key_conflicts_nonfatal
    (fun mods _ => if mods = 17 then GrabOutcome.conflict "held"
      else GrabOutcome.ok)
    ⟨1, 10, "Super+V"⟩ (by decide)

/-! ## Active-window PID query (src/hotkey/x11.rs `get_active_window_pid`) -/

/-- Property reply as the source consumes it: the reply's `format` and the
raw byte buffer `value`. -/
structure PropertyReply where
  format : Nat
  value : List Nat
deriving Repr, DecidableEq

/-- Connection context fields the query uses: the root window and the two
interned atoms. -/
structure X11Context where
  root : Nat
  net_active_window : Nat
  net_wm_pid : Nat
deriving Repr, DecidableEq

/-- Native-endian u32 from four bytes (`u32::from_ne_bytes`). -/
def u32_from_ne_bytes (b0 b1 b2 b3 : Nat) : Nat :=
  b0 + b1 * 256 + b2 * 65536 + b3 * 16777216

/-- The 32-bit word held in the first four bytes of a reply value. -/
def replyWord (r : PropertyReply) : Nat :=
  u32_from_ne_bytes (r.value.getD 0 0) (r.value.getD 1 0)
    (r.value.getD 2 0) (r.value.getD 3 0)

/-- Query the active window's PID.  `get_property` is the oracle for one
`xproto::get_property(window, atom)` round trip; its error value stands
for either a failed send or an error reply, both of which the source maps
to a connection-level error.  Mirrors the source: malformed first reply →
`Ok none`; null window id → `Ok none`; malformed second reply → `Ok none`;
otherwise `Ok (some pid)`. -/
def get_active_window_pid (ctx : X11Context)
    (get_property : Nat → Nat → Except String PropertyReply) :
    Except String (Option Nat) :=
  match get_property ctx.root ctx.net_active_window with
  | Except.error e => Except.error ("get_property _NET_ACTIVE_WINDOW: " ++ e)
  | Except.ok reply =>
    if reply.format ≠ 32 ∨ reply.value.length < 4 then Except.ok none
    else
      let window_id := replyWord reply
      if window_id = 0 then Except.ok none
      else
        match get_property window_id ctx.net_wm_pid with
        | Except.error e => Except.error ("get_property _NET_WM_PID: " ++ e)
        | Except.ok reply2 =>
          if reply2.format ≠ 32 ∨ reply2.value.length < 4 then Except.ok none
          else Except.ok (some (replyWord reply2))

/-- C7: malformed or absent protocol data yields the non-error absent
value.  When the first reply succeeds but its format is not 32 or its
value is shorter than one 32-bit word, when the referenced window id is
the null window 0, or when the second (owning-pid) reply is likewise
malformed, `get_active_window_pid` returns `Ok none`, never an error. -/
theorem get_active_window_pid_malformed_yields_none (ctx : X11Context)
    (get_property : Nat → Nat → Except String PropertyReply) :
    (∀ r, get_property ctx.root ctx.net_active_window = Except.ok r →
      (r.format ≠ 32 ∨ r.value.length < 4) →
      get_active_window_pid ctx get_property = Except.ok none) ∧
    (∀ r, get_property ctx.root ctx.net_active_window = Except.ok r →
      replyWord r = 0 →
      get_active_window_pid ctx get_property = Except.ok none) ∧
    (∀ r r2, get_property ctx.root ctx.net_active_window = Except.ok r →
      get_property (replyWord r) ctx.net_wm_pid = Except.ok r2 →
      (r2.format ≠ 32 ∨ r2.value.length < 4) →
      get_active_window_pid ctx get_property = Except.ok none) := by
  refine ⟨?_, ?_, ?_⟩
  · intro r hq hbad
    simp only [get_active_window_pid, hq]
    rw [if_pos hbad]
  · intro r hq hzero
    by_cases hbad : r.format ≠ 32 ∨ r.value.length < 4
    · simp only [get_active_window_pid, hq]
      rw [if_pos hbad]
    · simp only [get_active_window_pid, hq]
      rw [if_neg hbad, if_pos hzero]
  · intro r r2 hq hq2 hbad2
    by_cases hbad : r.format ≠ 32 ∨ r.value.length < 4
    · simp only [get_active_window_pid, hq]
      rw [if_pos hbad]
    · by_cases hzero : replyWord r = 0
      · simp only [get_active_window_pid, hq]
        rw [if_neg hbad, if_pos hzero]
      · simp only [get_active_window_pid, hq]
        rw [if_neg hbad, if_neg hzero]
        simp only [hq2]
        rw [if_pos hbad2]

/-- Witness for C7: a first reply of format 16 (not 32) makes the query
return `Ok none`. -/
theorem get_active_window_pid_malformed_yields_none_witness :
    get_active_window_pid ⟨1, 10, 11⟩
        (fun w a => if w = 1 ∧ a = 10
          then Except.ok ⟨16, [0, 0, 0, 0]⟩ else Except.error "io")
      = Except.ok none :=
  (get_active_window_pid_malformed_yields_none ⟨1, 10, 11⟩
      (fun w a => if w = 1 ∧ a = 10
        then Except.ok ⟨16, [0, 0, 0, 0]⟩ else Except.error "io")).1
    ⟨16, [0, 0, 0, 0]⟩ (by rfl) (by decide)

/-! ## Sink delivery (src/broker/sink.rs) -/

/-- Sink metadata (src/broker/state.rs `SinkMetadata`, per the spec's data
model): accepted by every sink, unused by the current ones. -/
structure SinkMetadata where
  turn_id : String
  timestamp : Nat
  byte_length : Nat
  interrupted : Bool
  truncated : Bool
deriving Repr, DecidableEq

/-- Write content to the system clipboard via the injected writer
(src/broker/sink.rs `deliver_clipboard`): the body is exactly
`clipboard_writer(content)`; metadata is accepted and ignored. -/
def deliver_clipboard (content : List Nat) (_metadata : SinkMetadata)
    (clipboard_writer : List Nat → Except String Unit) : Except String Unit :=
  clipboard_writer content

/-- C3 evidence: a writer failing with its own error value has that value
propagated verbatim — `deliver_clipboard` does not collapse it to the
opaque `clipboard_failed` code that its doc comment and the spec promise,
while a succeeding writer does make the call succeed. -/
theorem deliver_clipboard_propagates_writer_error :
    deliver_clipboard [104, 105] ⟨"s1:1", 1000, 2, false, false⟩
        (fun _ => Except.error "boom")
      = Except.error "boom" ∧
    (Except.error "boom" : Except String Unit)
      ≠ Except.error "clipboard_failed" ∧
    deliver_clipboard [104, 105] ⟨"s1:1", 1000, 2, false, false⟩
        (fun _ => Except.ok ())
      = Except.ok () := by
  refine ⟨rfl, ?_, rfl⟩
  intro h
  have h2 : ("boom" : String) = "clipboard_failed" := by injection h
  exact absurd h2 (by decide)

/-! ## Event-polling loop (src/hotkey/x11.rs `spawn_event_thread`) -/

/-- Poll timeout the thread passes to `poll`, in milliseconds
(`PollTimeout::from(100u16)`). -/
def pollTimeoutMs : Nat := 100

/-- Outcome of one `poll` call and the drain that follows, as the loop
distinguishes them: timeout (`Ok(0)`), readable (`Ok(n)`, after which the
queued events are drained and then `poll_for_event` either returns `None`
or a connection error), `EINTR` (retried), or another poll error. -/
inductive PollOutcome where
  | timeout : PollOutcome
  | readable : List Nat → Bool → PollOutcome
  | eintr : PollOutcome
  | pollFailed : PollOutcome
deriving Repr

/-- Why the modelled loop stopped; `fuelOut` marks an execution cut short
by the model's fuel, not an exit of the code. -/
inductive LoopExit where
  | stopped : LoopExit
  | recvDropped : LoopExit
  | connErr : LoopExit
  | pollErr : LoopExit
  | fuelOut : LoopExit
deriving Repr, DecidableEq

/-- The `while !stop` loop of the event thread.  Iteration `i` first reads
the stop flag (`stopFlag i`); when clear it issues one poll with
`pollTimeoutMs` (recorded in the returned trace of poll timeouts) and acts
on `pollOutcome i`: timeout and EINTR re-loop; a poll error ends the
thread; on readable, drained events are sent to the channel — if the
receiver was dropped (`recvOpen = false` with events pending) the thread
returns, a connection error during the drain returns, otherwise the loop
continues. -/
def eventLoopRun (stopFlag : Nat → Bool) (pollOutcome : Nat → PollOutcome)
    (recvOpen : Bool) : Nat → Nat → LoopExit × List Nat
  | 0, _ => (LoopExit.fuelOut, [])
  | fuel + 1, i =>
    if stopFlag i then (LoopExit.stopped, [])
    else
      match pollOutcome i with
      | PollOutcome.timeout =>
        let r := eventLoopRun stopFlag pollOutcome recvOpen fuel (i + 1)
        (r.1, pollTimeoutMs :: r.2)
      | PollOutcome.eintr =>
        let r := eventLoopRun stopFlag pollOutcome recvOpen fuel (i + 1)
        (r.1, pollTimeoutMs :: r.2)
      | PollOutcome.pollFailed => (LoopExit.pollErr, [pollTimeoutMs])
      | PollOutcome.readable events connErr =>
        if events ≠ [] ∧ recvOpen = false then
          (LoopExit.recvDropped, [pollTimeoutMs])
        else if connErr then (LoopExit.connErr, [pollTimeoutMs])
        else
          let r := eventLoopRun stopFlag pollOutcome recvOpen fuel (i + 1)
          (r.1, pollTimeoutMs :: r.2)

/-- C8: the stop flag is re-read at the top of every iteration, and once
it is set (true from iteration k on) the loop exits — given fuel beyond
k - i it never runs out — without starting any poll from iteration k on:
starting at iteration i it issues at most k - i polls, every one of them
with the 100 ms timeout, so after the flag is set only the poll already in
flight (bounded by its 100 ms timeout) can delay the exit. -/
theorem event_loop_stops_within_one_timeout (stopFlag : Nat → Bool)
    (pollOutcome : Nat → PollOutcome) (recvOpen : Bool) (k : Nat) :
    ∀ fuel i, (∀ j, k ≤ j → stopFlag j = true) → k - i < fuel →
      (eventLoopRun stopFlag pollOutcome recvOpen fuel i).1 ≠ LoopExit.fuelOut ∧
      (eventLoopRun stopFlag pollOutcome recvOpen fuel i).2.length ≤ k - i ∧
      ∀ t ∈ (eventLoopRun stopFlag pollOutcome recvOpen fuel i).2,
        t = pollTimeoutMs := by
  intro fuel
  induction fuel with
  | zero => intro i hflag hfuel; omega
  | succ n ih =>
    intro i hflag hfuel
    by_cases hs : stopFlag i = true
    · simp [eventLoopRun, hs]
    · have hb : stopFlag i = false := Bool.eq_false_iff.mpr hs
      have hik : i < k := by
        by_contra hge
        exact hs (hflag i (by omega))
      have hrec : k - (i + 1) < n := by omega
      have step : ∀ res : LoopExit × List Nat,
          res = eventLoopRun stopFlag pollOutcome recvOpen n (i + 1) →
          (res.1 ≠ LoopExit.fuelOut ∧
            (pollTimeoutMs :: res.2).length ≤ k - i ∧
            ∀ t ∈ pollTimeoutMs :: res.2, t = pollTimeoutMs) := by
        intro res hres
        obtain ⟨h1, h2, h3⟩ := ih (i + 1) hflag hrec
        rw [hres]
        refine ⟨h1, ?_, ?_⟩
        · simp only [List.length_cons]
          omega
        · intro t ht
          rcases List.mem_cons.mp ht with h | h
          · exact h
          · exact h3 t h
      simp only [eventLoopRun, hb, Bool.false_eq_true, if_false]
      cases hp : pollOutcome i with
      | timeout => exact step _ rfl
      | eintr => exact step _ rfl
      | pollFailed =>
        refine ⟨by simp, by simp; omega, ?_⟩
        intro t ht
        simp at ht
        rw [ht]
      | readable events connErr =>
        dsimp only
        by_cases hrecv : events ≠ [] ∧ recvOpen = false
        · rw [if_pos hrecv]
          refine ⟨by simp, by simp; omega, ?_⟩
          intro t ht
          simp at ht
          rw [ht]
        · rw [if_neg hrecv]
          by_cases hc : connErr = true
          · rw [if_pos hc]
            refine ⟨by simp, by simp; omega, ?_⟩
            intro t ht
            simp at ht
            rw [ht]
          · rw [if_neg hc]
            exact step _ rfl

/-- Witness for C8: flag set from iteration 1 on, only timeouts arriving —
the loop exits, having issued at most one poll, with the 100 ms timeout. -/
theorem event_loop_stops_within_one_timeout_witness :
    (eventLoopRun (fun j => decide (1 ≤ j)) (fun _ => PollOutcome.timeout)
        true 3 0).1 ≠ LoopExit.fuelOut ∧
    (eventLoopRun (fun j => decide (1 ≤ j)) (fun _ => PollOutcome.timeout)
        true 3 0).2.length ≤ 1 - 0 ∧
    ∀ t ∈ (eventLoopRun (fun j => decide (1 ≤ j))
        (fun _ => PollOutcome.timeout) true 3 0).2, t = pollTimeoutMs :=
  event_loop_stops_within_one_timeout (fun j => decide (1 ≤ j))
    (fun _ => PollOutcome.timeout) true 1 3 0
    (fun j hj => decide_eq_true hj) (by decide)

end Clippy
